import Mathlib

/-!
# Shallow embedding of the go-mirror reverse proxy

This file embeds the request-forwarding engine (`controllers/proxy_controller.go`,
the variant with per-class connection counters and trace IDs), the router and
lifecycle manager (`server/server.go`), and the metric path normalizer
(`common/metric/otel.go`) of the 3box/go-mirror repository, and proves the
specification claims about them.

Conventions:
* Go `http.Header` (a map from canonical keys to value slices) is modelled as an
  association list `HeaderMap` with pairwise-distinct keys assumed where needed.
* The outbound HTTP round trip is an oracle value (`RoundTripResult`) fed to the
  embedded handler, covering transport errors, response-body read failures and
  successful responses.
* Go `context.Context` values are modelled by the `ContextRef` tree recording
  which context a request was created with.
* The mutable gin response writer is modelled by explicit state passing of a
  `CallerResponse` value.
-/

namespace GoMirror

/-- Go `http.Header`: association list from header key to the slice of values. -/
abbrev HeaderMap := List (String × List String)

/-- `http.Header.Del` (via gin): remove every entry with the given key. -/
def hdrDel (h : HeaderMap) (k : String) : HeaderMap :=
  h.filter (fun p => p.1 ≠ k)

/-- `http.Header.Set`: replace the values of `k` by the singleton `[v]`. -/
def hdrSet (h : HeaderMap) (k v : String) : HeaderMap :=
  hdrDel h k ++ [(k, [v])]

/-- `http.Header.Get`: first value stored for the key, or `""` when absent. -/
def hdrGet (h : HeaderMap) (k : String) : String :=
  match h.find? (fun p => p.1 = k) with
  | some (_, v :: _) => v
  | _ => ""

/-- All values stored for a key (order preserved). -/
def hdrValues (h : HeaderMap) (k : String) : List String :=
  ((h.filter (fun p => p.1 = k)).map Prod.snd).flatten

/-- gin `Context.Header(key, value)`: `Set`, except an empty value deletes the
key (`if value == "" { c.Writer.Header().Del(key); return }`). -/
def ginHeader (h : HeaderMap) (k v : String) : HeaderMap :=
  if v = "" then hdrDel h k else hdrSet h k v

/-- The header-copy loop of `sendRequest`:
`for k, vv := range resp.Header { for _, v := range vv { c.Header(k, v) } }`. -/
def copyRespHeaders (caller : HeaderMap) (upstream : HeaderMap) : HeaderMap :=
  upstream.foldl (fun acc p => p.2.foldl (fun acc2 v => ginHeader acc2 p.1 v) acc) caller

/-- Go `strings.HasPre fix(s, pre)` (name shortened): whether `s` starts with
`pre`, computed on character lists. -/
def goHasPre (s pre : String) : Bool :=
  pre.toList.isPrefixOf s.toList

/-- Go `strings.TrimPre fix(s, pre)` (name shortened): drop `pre` when `s`
starts with it, else return `s` unchanged. -/
def goTrimPre (s pre : String) : String :=
  if goHasPre s pre then String.mk (s.toList.drop pre.toList.length) else s

/-- Go `strings.Split(s, sep)` for a one-character separator, on the character
list of `s`: splits around every instance of `sep`; the empty input yields the
single segment `[]` (Go returns `[""]`), never the empty list of segments. -/
def goSplitChar (sep : Char) : List Char → List (List Char)
  | [] => [[]]
  | c :: rest =>
    match goSplitChar sep rest with
    | [] => [[]]
    | seg :: segs => if c = sep then [] :: seg :: segs else (c :: seg) :: segs

/-- `normalizePath` from `common/metric/otel.go`: trim the `/api/v0/` prefix,
split on `/`, and bucket by the first segment into `/node`, `/streams` or
`/other`; an (unreachable) empty split yields `/`. -/
def normalizePath (path : String) : String :=
  let segments := goSplitChar '/' (goTrimPre path "/api/v0/").toList
  if segments.length = 0 then
    "/"
  else
    let firstSegment := segments.headD []
    if firstSegment = "node".toList then "/node"
    else if firstSegment = "streams".toList then "/streams"
    else "/other"

/-- The path label `RecordRequest` attaches: `normalizePath(path)`
(`otel.go`, `normalizedPath := normalizePath(path)`). -/
def recordRequestPathLabel (path : String) : String := normalizePath path

/-- The path label `RecordDuration` attaches: `normalizePath(path)`. -/
def recordDurationPathLabel (path : String) : String := normalizePath path

/-! ## Forwarding engine (`controllers/proxy_controller.go`, second variant) -/

/-- Which Go `context.Context` a derived context or request hangs off.
`background` is `context.Background()` handed to the controller at startup
(`_this.ctx`); `callerRequest` is the per-request `c.Request.Context()`;
`withTimeout p d` is `context.WithTimeout(p, d)` (duration in milliseconds). -/
inductive ContextRef
  | background
  | callerRequest
  | withTimeout (parent : ContextRef) (timeoutMs : Nat)
  deriving DecidableEq, Repr

/-- Whether cancellation caused by the caller disconnecting propagates to work
running under this context (Go cancellation flows parent to child). -/
def cancelledOnCallerDisconnect : ContextRef → Bool
  | .background => false
  | .callerRequest => true
  | .withTimeout parent _ => cancelledOnCallerDisconnect parent

/-- `requestType` from the controller: the proxy (primary) or mirror class. -/
inductive ReqType
  | proxy
  | mirror
  deriving DecidableEq, Repr

/-- The caller's inbound request as the handler sees it.  `bodyRead` is the
result of `io.ReadAll(c.Request.Body)`: `none` models a read failure. -/
structure InboundRequest where
  method : String
  path : String
  rawQuery : String
  headers : HeaderMap
  bodyRead : Option (List Nat)
  deriving DecidableEq, Repr

/-- An outbound request built by `processRequest` via
`http.NewRequestWithContext`. -/
structure OutboundRequest where
  ctx : ContextRef
  method : String
  url : String
  headers : HeaderMap
  body : List Nat
  contentLength : Int
  deriving DecidableEq, Repr

/-- What the caller-facing response body holds: a gin `c.JSON` error object or
raw bytes written by `c.Data`. -/
inductive RespBody
  | jsonError (msg : String)
  | raw (bytes : List Nat)
  deriving DecidableEq, Repr

/-- The state of the gin response writer for the inbound caller. -/
structure CallerResponse where
  headers : HeaderMap
  status : Option Nat
  contentType : String
  body : Option RespBody
  deriving DecidableEq, Repr

/-- A fresh gin response writer: nothing written yet. -/
def emptyResponse : CallerResponse :=
  { headers := [], status := none, contentType := "", body := none }

/-- gin `c.JSON(status, gin.H{"error": msg})`. -/
def writeJSON (r : CallerResponse) (status : Nat) (msg : String) : CallerResponse :=
  { r with
    status := some status
    contentType := "application/json; charset=utf-8"
    body := some (.jsonError msg) }

/-- gin `c.Data(status, contentType, bytes)`. -/
def writeData (r : CallerResponse) (status : Nat) (ct : String) (bytes : List Nat) :
    CallerResponse :=
  { r with status := some status, contentType := ct, body := some (.raw bytes) }

/-- Result of `_this.client.Do(req)` plus the subsequent
`io.ReadAll(resp.Body)`: a transport error, or a response with status, headers
and the body-read outcome (`none` = read failure). -/
inductive RoundTripResult
  | transportError
  | response (status : Nat) (headers : HeaderMap) (bodyRead : Option (List Nat))
  deriving DecidableEq, Repr

/-- Observable side effects of `sendRequest` other than caller-response writes:
per-class active-connection increments/decrements, the gauge report issued by
`recordActiveConnections`, the round trip itself, and the deferred metric
emission (`RecordRequest`/`RecordDuration`). -/
inductive Ev
  | connInc (t : ReqType)
  | connDec (t : ReqType)
  | gauge (t : ReqType)
  | roundTrip
  | metricRecord
  deriving DecidableEq, Repr

/-- Modelled from the spec: `config.ServiceName`, the attribution value set in
the `X-Proxied-By` header ("an attribution header identifying the proxy").
The constant's defining file is not under `src/`; no claim depends on its
exact value. -/
def serviceName : String := "go-proxy"

/-- `sendRequest` (proxy controller, lines 468-589): select the class counter,
increment it and report the gauge, perform the round trip, and on the proxy
class write the upstream response (or a 502/500 error) to the caller; the
deferred blocks emit the metrics and decrement the counter with a second gauge
report on every exit path.  Returns the updated caller response and the event
trace.  The mirror class never writes to the caller (`if reqType ==
mirrorRequest { return }` precedes the response processing, and both error
writes are guarded by `reqType == proxyRequest`). -/
def sendRequest (t : ReqType) (traceID : String) (rt : RoundTripResult)
    (resp0 : CallerResponse) : CallerResponse × List Ev :=
  let pre : List Ev := [.connInc t, .gauge t, .roundTrip]
  let suf : List Ev := [.metricRecord, .connDec t, .gauge t]
  match rt with
  | .transportError =>
    (if t = .proxy then writeJSON resp0 502 "proxy error" else resp0, pre ++ suf)
  | .response st upstreamHeaders bodyRead =>
    if t = .mirror then
      (resp0, pre ++ suf)
    else
      match bodyRead with
      | none => (writeJSON resp0 500 "failed to read response", pre ++ suf)
      | some respBody =>
        let h1 := copyRespHeaders resp0.headers upstreamHeaders
        let h2 := ginHeader h1 "X-Proxied-By" serviceName
        let h3 := ginHeader h2 "X-Trace-ID" traceID
        (writeData { resp0 with headers := h3 } st (hdrGet upstreamHeaders "Content-Type")
          respBody, pre ++ suf)

/-- `processRequest` (lines 418-466), request-construction part: the outbound
request targets `targetURL.String() + path(+query)`, is created with
`c.Request.Context()` — the caller's per-request context — copies every inbound
header, sets `X-Trace-ID`, and carries the buffered body. -/
def buildOutboundRequest (inb : InboundRequest) (bodyBytes : List Nat) (targetURL : String)
    (traceID : String) : OutboundRequest :=
  let targetPath := inb.path ++ (if inb.rawQuery ≠ "" then "?" ++ inb.rawQuery else "")
  { ctx := .callerRequest
    method := inb.method
    url := targetURL ++ targetPath
    headers := hdrSet inb.headers "X-Trace-ID" traceID
    body := bodyBytes
    contentLength := if bodyBytes.length > 0 then (bodyBytes.length : Int) else 0 }

/-- `processRequest` (lines 418-466): build the outbound request via
`http.NewRequestWithContext` and hand it to `sendRequest`.  `createOk` is the
oracle for whether request creation succeeds; `NewRequestWithContext` fails when
`url.Parse` rejects the assembled URL, e.g. a percent-encoded control character
in the inbound path.  On creation failure (lines 437-445) the error is logged
and a 500 JSON error body "failed to create request" is written
to the caller — a write NOT guarded by the request class, so it also runs on the
mirror leg — and the leg sends nothing (no round trip, no connection events). -/
def processRequest (inb : InboundRequest) (t : ReqType) (bodyBytes : List Nat)
    (targetURL : String) (traceID : String) (createOk : Bool) (rt : RoundTripResult)
    (resp0 : CallerResponse) : Option OutboundRequest × CallerResponse × List Ev :=
  if createOk then
    let req := buildOutboundRequest inb bodyBytes targetURL traceID
    let r := sendRequest t traceID rt resp0
    (some req, r.1, r.2)
  else
    (none, writeJSON resp0 500 "failed to create request", [])

/-- Outcome of one inbound request through `proxyAndMirrorRequest`: the final
caller response, the outbound requests actually built for each leg (`none` =
that leg never forwarded), and each leg's event trace. -/
structure ProxyOutcome where
  resp : CallerResponse
  primaryReq : Option OutboundRequest
  mirrorReq : Option OutboundRequest
  primaryEvents : List Ev
  mirrorEvents : List Ev
  deriving DecidableEq, Repr

/-- The trace-ID selection at the top of `proxyAndMirrorRequest`:
`traceID := c.GetHeader("X-Trace-ID"); if traceID == "" { traceID = uuid.New().String() }`. -/
def chooseTraceID (inb : InboundRequest) (freshUUID : String) : String :=
  let t := hdrGet inb.headers "X-Trace-ID"
  if t = "" then freshUUID else t

/-- `proxyAndMirrorRequest` (lines 390-416): pick the trace ID, read the body
(on failure respond 500 and return before any forwarding), then run the primary
leg synchronously and, when a mirror is configured, spawn the mirror leg
(`go _this.processRequest(c, mirrorRequest, ...)`); the mirror is spawned even
if the primary leg failed inside `processRequest`, since that error returns
only from `processRequest`.  `freshUUID` stands for `uuid.New().String()`;
`primaryCreateOk`/`mirrorCreateOk` are the request-creation oracles of the two
legs and `primaryRT`/`mirrorRT` their round-trip oracles. -/
def proxyAndMirrorRequest (mirrorConfigured : Bool) (targetURL mirrorURL : String)
    (freshUUID : String) (inb : InboundRequest) (primaryCreateOk mirrorCreateOk : Bool)
    (primaryRT mirrorRT : RoundTripResult) : ProxyOutcome :=
  let traceID := chooseTraceID inb freshUUID
  match inb.bodyRead with
  | none =>
    { resp := writeJSON emptyResponse 500 "failed to read request"
      primaryReq := none, mirrorReq := none, primaryEvents := [], mirrorEvents := [] }
  | some bodyBytes =>
    let p := processRequest inb .proxy bodyBytes targetURL traceID primaryCreateOk
      primaryRT emptyResponse
    if mirrorConfigured then
      let m := processRequest inb .mirror bodyBytes mirrorURL traceID mirrorCreateOk
        mirrorRT p.2.1
      { resp := m.2.1, primaryReq := p.1, mirrorReq := m.1
        primaryEvents := p.2.2, mirrorEvents := m.2.2 }
    else
      { resp := p.2.1, primaryReq := p.1, mirrorReq := none
        primaryEvents := p.2.2, mirrorEvents := [] }

/-! ## Connection-accounting semantics -/

/-- Contribution of one event to the class-`t` active-connection counter. -/
def connDelta (t : ReqType) : Ev → Int
  | .connInc s => if s = t then 1 else 0
  | .connDec s => if s = t then -1 else 0
  | _ => 0

/-- Folding a trace of events over the class-`t` counter from value `v`. -/
def runCounter (t : ReqType) (v : Int) (evs : List Ev) : Int :=
  evs.foldl (fun a e => a + connDelta t e) v

/-! ## Router/Dispatcher (`server/server.go`, `handleProxy`) -/

/-- The handler `handleProxy` hands a request to. -/
inductive Handler
  | acmeChallenge
  | metricsScrape
  | proxyGet
  | proxyPost
  | proxyPut
  | proxyDelete
  | methodNotAllowed
  deriving DecidableEq, Repr

/-- Whether a handler reaches the forwarding engine (every `proxyController`
method funnels into `proxyAndMirrorRequest`). -/
def reachesForwardingEngine : Handler → Bool
  | .proxyGet | .proxyPost | .proxyPut | .proxyDelete => true
  | _ => false

/-- `handleProxy` (server.go, lines 92-113): ACME challenge paths go to the
certificate manager's handler, `/metrics` paths to the Prometheus handler, and
the rest are dispatched on the method with a 405 default. -/
def handleProxy (method path : String) : Handler :=
  if goHasPre path "/.well-known/acme-challenge/" then .acmeChallenge
  else if goHasPre path "/metrics" then .metricsScrape
  else
    if method = "GET" then .proxyGet
    else if method = "POST" then .proxyPost
    else if method = "PUT" then .proxyPut
    else if method = "DELETE" then .proxyDelete
    else .methodNotAllowed

/-- Reference dispatch following the amended claim's words: ACME challenge
paths to the certificate handler, `/metrics` paths to the scrape handler, all
other paths dispatched by method among GET/POST/PUT/DELETE only, every other
method — including OPTIONS — answered 405 with no forwarding. -/
def dispatchSpecAmended (method path : String) : Handler :=
  if goHasPre path "/.well-known/acme-challenge/" then .acmeChallenge
  else if goHasPre path "/metrics" then .metricsScrape
  else if method = "GET" then .proxyGet
  else if method = "POST" then .proxyPost
  else if method = "PUT" then .proxyPut
  else if method = "DELETE" then .proxyDelete
  else .methodNotAllowed

/-! ## Panic containment -/

/-- What running the inner request handler does: finish with a response, or
panic with an error value. -/
inductive HandlerOutcome
  | normal (resp : CallerResponse)
  | panicked (msg : String)

/-- Result of one request after the containment layer. -/
structure ContainedResult where
  resp : CallerResponse
  panicMetricRecorded : Bool
  stackTraceLogged : Bool
  deriving DecidableEq, Repr

/-- Modelled from the spec: the panic-containment middleware wrapping every
request is not under `src/` (only the `MetricPanicRecovered` metric constant it
records, `common/metric/metric.go` line 22, is).  Per §4.2/§7(4): any panic is
recovered, recorded as a panic metric, logged with a captured stack trace and
converted into a 500 response; a normal outcome passes through untouched. -/
def panicContainment (run : InboundRequest → HandlerOutcome) (req : InboundRequest) :
    ContainedResult :=
  match run req with
  | .normal r =>
    { resp := r, panicMetricRecorded := false, stackTraceLogged := false }
  | .panicked _ =>
    { resp := writeJSON emptyResponse 500 "internal server error"
      panicMetricRecorded := true
      stackTraceLogged := true }

/-- Modelled from the spec: the process keeps serving — every request in a
sequence is handled through the containment layer, whatever earlier requests
did. -/
def serveSequence (run : InboundRequest → HandlerOutcome) (reqs : List InboundRequest) :
    List ContainedResult :=
  reqs.map (panicContainment run)

/-! ## Lifecycle manager (`server/server.go`, `Run` and `Stop`) -/

/-- The OS signals relevant to the shutdown path. -/
inductive OsSignal
  | sigint
  | sigterm
  | sigquit
  | sighup
  | sigusr1
  deriving DecidableEq, Repr

/-- `signal.Notify(quit, syscall.SIGTERM, syscall.SIGINT, syscall.SIGQUIT,
syscall.SIGHUP)`: the signals the shutdown goroutine is woken by. -/
def notifiedSignals : List OsSignal := [.sigterm, .sigint, .sigquit, .sighup]

/-- Result of `Stop` (lines 261-282): which listeners had `Shutdown` invoked,
the collected error strings, the aggregate error, and the deadline (seconds)
of the shared shutdown context. -/
structure StopOutcome where
  attemptedChallenge : Bool
  attemptedProxy : Bool
  errs : List String
  aggregateErr : Option String
  deadlineSeconds : Nat
  deriving DecidableEq, Repr

/-- `Stop`: derive a context bounded by 5 seconds, shut down the challenge
server when present and then the proxy server unconditionally, collecting each
error into `errs`, and return an aggregate error exactly when any shutdown
failed.  `challengeErr`/`proxyErr` are the oracle results of the two
`Shutdown` calls. -/
def stop (challengePresent : Bool) (challengeErr proxyErr : Option String) : StopOutcome :=
  let errs1 :=
    if challengePresent then
      match challengeErr with
      | some e => ["challenge server shutdown error: " ++ e]
      | none => []
    else []
  let errs2 := errs1 ++
    (match proxyErr with
     | some e => ["proxy server shutdown error: " ++ e]
     | none => [])
  { attemptedChallenge := challengePresent
    attemptedProxy := true
    errs := errs2
    aggregateErr :=
      if errs2.length > 0 then some ("shutdown errors: " ++ String.intercalate "; " errs2)
      else none
    deadlineSeconds := 5 }

/-- Result of the shutdown goroutine in `Run` (lines 164-183) once a signal
arrives: the shared server context is cancelled, `Stop` runs, and a non-nil
aggregate error is fatal (`logger.Fatalf`). -/
structure ShutdownRun where
  serverCtxCancelled : Bool
  stopResult : StopOutcome
  fatalExit : Bool
  deriving DecidableEq, Repr

/-- The shutdown orchestration: the goroutine blocks on the notified-signal
channel, so a signal outside `notifiedSignals` triggers nothing (`none`); a
notified signal cancels the server context and invokes `Stop`. -/
def runShutdownOnSignal (sig : OsSignal) (challengePresent : Bool)
    (challengeErr proxyErr : Option String) : Option ShutdownRun :=
  if sig ∈ notifiedSignals then
    let st := stop challengePresent challengeErr proxyErr
    some { serverCtxCancelled := true, stopResult := st, fatalExit := st.aggregateErr.isSome }
  else
    none

/-! ## Helper lemmas -/

theorem goSplitChar_ne_nil (sep : Char) (l : List Char) : goSplitChar sep l ≠ [] := by
  cases l with
  | nil => simp [goSplitChar]
  | cons c rest =>
    simp only [goSplitChar]
    cases goSplitChar sep rest with
    | nil => simp
    | cons seg segs =>
      by_cases h : c = sep <;> simp [h]

theorem hdrValues_nil (k : String) : hdrValues [] k = [] := rfl

theorem hdrValues_cons (p : String × List String) (t : HeaderMap) (k : String) :
    hdrValues (p :: t) k = (if p.1 = k then p.2 else []) ++ hdrValues t k := by
  by_cases hp : p.1 = k <;> simp [hdrValues, List.filter_cons, hp]

theorem hdrDel_cons (p : String × List String) (t : HeaderMap) (k : String) :
    hdrDel (p :: t) k = if p.1 = k then hdrDel t k else p :: hdrDel t k := by
  by_cases hp : p.1 = k <;> simp [hdrDel, List.filter_cons, hp]

theorem hdrDel_append (h₁ h₂ : HeaderMap) (k : String) :
    hdrDel (h₁ ++ h₂) k = hdrDel h₁ k ++ hdrDel h₂ k := by
  simp [hdrDel, List.filter_append]

theorem hdrValues_hdrDel_self (h : HeaderMap) (k : String) :
    hdrValues (hdrDel h k) k = [] := by
  induction h with
  | nil => rfl
  | cons p t ih =>
    rw [hdrDel_cons]
    by_cases hp : p.1 = k
    · rw [if_pos hp]; exact ih
    · rw [if_neg hp, hdrValues_cons, if_neg hp, List.nil_append]; exact ih

theorem hdrValues_hdrDel_other (h : HeaderMap) (k k' : String) (hne : k' ≠ k) :
    hdrValues (hdrDel h k) k' = hdrValues h k' := by
  induction h with
  | nil => rfl
  | cons p t ih =>
    rw [hdrDel_cons]
    by_cases hp : p.1 = k
    · have hp' : ¬ p.1 = k' := fun e => hne (e.symm.trans hp)
      rw [if_pos hp, hdrValues_cons, if_neg hp', List.nil_append]; exact ih
    · rw [if_neg hp, hdrValues_cons, hdrValues_cons, ih]

theorem hdrValues_append (h₁ h₂ : HeaderMap) (k : String) :
    hdrValues (h₁ ++ h₂) k = hdrValues h₁ k ++ hdrValues h₂ k := by
  simp [hdrValues, List.filter_append]

theorem hdrValues_hdrSet_self (h : HeaderMap) (k v : String) :
    hdrValues (hdrSet h k v) k = [v] := by
  rw [hdrSet, hdrValues_append, hdrValues_hdrDel_self, List.nil_append, hdrValues_cons]
  simp [hdrValues]

theorem hdrValues_hdrSet_other (h : HeaderMap) (k k' v : String) (hne : k' ≠ k) :
    hdrValues (hdrSet h k v) k' = hdrValues h k' := by
  have hkk : ¬ k = k' := fun e => hne e.symm
  rw [hdrSet, hdrValues_append, hdrValues_hdrDel_other h k k' hne, hdrValues_cons]
  simp [hdrValues, hkk]

theorem hdrValues_ginHeader_other (h : HeaderMap) (k k' v : String) (hne : k' ≠ k) :
    hdrValues (ginHeader h k v) k' = hdrValues h k' := by
  by_cases hv : v = "" <;>
    simp [ginHeader, hv, hdrValues_hdrDel_other h k k' hne, hdrValues_hdrSet_other h k k' v hne]

theorem hdrValues_ginHeader_self_empty (h : HeaderMap) (k : String) :
    hdrValues (ginHeader h k "") k = [] := by
  simp [ginHeader, hdrValues_hdrDel_self]

theorem hdrValues_ginHeader_self (h : HeaderMap) (k v : String) (hv : v ≠ "") :
    hdrValues (ginHeader h k v) k = [v] := by
  simp [ginHeader, hv, hdrValues_hdrSet_self]

theorem hdrGet_append_last (k v : String) (l : HeaderMap) (hl : ∀ p ∈ l, p.1 ≠ k) :
    hdrGet (l ++ [(k, [v])]) k = v := by
  induction l with
  | nil =>
    rw [List.nil_append, hdrGet, List.find?_cons_of_pos _ (by simp)]
  | cons p t ih =>
    have hp : ¬ p.1 = k := hl p (List.mem_cons_self p t)
    rw [List.cons_append, hdrGet, List.find?_cons_of_neg _ (by simp [hp])]
    exact ih (fun q hq => hl q (List.mem_cons_of_mem p hq))

theorem hdrGet_hdrSet_self (h : HeaderMap) (k v : String) :
    hdrGet (hdrSet h k v) k = v := by
  refine hdrGet_append_last k v (hdrDel h k) ?_
  intro p hp
  rw [hdrDel] at hp
  simpa using List.of_mem_filter hp

theorem hdrGet_ginHeader_self (h : HeaderMap) (k v : String) (hv : v ≠ "") :
    hdrGet (ginHeader h k v) k = v := by
  rw [ginHeader, if_neg hv, hdrGet_hdrSet_self]

theorem hdrDel_hdrDel_self (h : HeaderMap) (k : String) :
    hdrDel (hdrDel h k) k = hdrDel h k := by
  induction h with
  | nil => rfl
  | cons p t ih => by_cases hp : p.1 = k <;> simp [hdrDel_cons, hp, ih]

theorem hdrDel_hdrSet_self (h : HeaderMap) (k v : String) :
    hdrDel (hdrSet h k v) k = hdrDel h k := by
  rw [hdrSet, hdrDel_append, hdrDel_hdrDel_self, hdrDel_cons]
  simp [hdrDel]

/-- Last write wins: two successive gin header writes to the same key keep
only the second. -/
theorem hdrDel_nil (k : String) : hdrDel [] k = [] := rfl

theorem ginHeader_ginHeader_self (h : HeaderMap) (k v u : String) :
    ginHeader (ginHeader h k v) k u = ginHeader h k u := by
  by_cases hv : v = "" <;> by_cases hu : u = "" <;>
    simp [ginHeader, hv, hu, hdrSet, hdrDel_append, hdrDel_hdrDel_self, hdrDel_cons, hdrDel_nil]

theorem ginHeader_foldl_eq_last (k : String) (vv : List String) (hvv : vv ≠ [])
    (acc : HeaderMap) :
    vv.foldl (fun a v => ginHeader a k v) acc = ginHeader acc k (vv.getLastD "") := by
  induction vv generalizing acc with
  | nil => exact absurd rfl hvv
  | cons v rest ih =>
    cases rest with
    | nil => rfl
    | cons w ws =>
      rw [List.foldl_cons, ih (by simp) (ginHeader acc k v), ginHeader_ginHeader_self]
      rfl

/-- The inner value loop never touches another key. -/
theorem innerFold_other (k k1 : String) (hne : k ≠ k1) (vv : List String) (acc : HeaderMap) :
    hdrValues (vv.foldl (fun a v => ginHeader a k1 v) acc) k = hdrValues acc k := by
  induction vv generalizing acc with
  | nil => rfl
  | cons v rest ih =>
    rw [List.foldl_cons, ih]
    exact hdrValues_ginHeader_other acc k1 k v hne

/-- Keys never written by the copy loop keep their values. -/
theorem copyRespHeaders_other (up : HeaderMap) (acc : HeaderMap) (k : String)
    (hk : k ∉ up.map Prod.fst) :
    hdrValues (copyRespHeaders acc up) k = hdrValues acc k := by
  induction up generalizing acc with
  | nil => rfl
  | cons p rest ih =>
    simp only [List.map_cons, List.mem_cons, not_or] at hk
    rw [copyRespHeaders, List.foldl_cons]
    rw [show (List.foldl (fun acc p => p.2.foldl (fun acc2 v => ginHeader acc2 p.1 v) acc)
      (p.2.foldl (fun acc2 v => ginHeader acc2 p.1 v) acc) rest) =
      copyRespHeaders (p.2.foldl (fun acc2 v => ginHeader acc2 p.1 v) acc) rest from rfl]
    rw [ih _ hk.2]
    exact innerFold_other k p.1 hk.1 p.2 acc

/-- A key present in the upstream headers (distinct keys) ends up holding
exactly the last of its upstream values: absent when that value is empty (or
there are none and the accumulator held nothing), else that single value. -/
theorem copyRespHeaders_mem (up : HeaderMap) (acc : HeaderMap) (k : String)
    (vv : List String) (hnodup : (up.map Prod.fst).Nodup) (hmem : (k, vv) ∈ up) :
    hdrValues (copyRespHeaders acc up) k =
      if vv = [] then hdrValues acc k
      else if vv.getLastD "" = "" then [] else [vv.getLastD ""] := by
  induction up generalizing acc with
  | nil => exact absurd hmem (List.not_mem_nil _)
  | cons p rest ih =>
    rw [List.map_cons, List.nodup_cons] at hnodup
    rw [copyRespHeaders, List.foldl_cons]
    rw [show (List.foldl (fun acc p => p.2.foldl (fun acc2 v => ginHeader acc2 p.1 v) acc)
      (p.2.foldl (fun acc2 v => ginHeader acc2 p.1 v) acc) rest) =
      copyRespHeaders (p.2.foldl (fun acc2 v => ginHeader acc2 p.1 v) acc) rest from rfl]
    rcases List.mem_cons.mp hmem with hhead | hrest
    · have hk : p.1 = k := by rw [← hhead]
      have hv : p.2 = vv := by rw [← hhead]
      rw [copyRespHeaders_other rest _ k (hk ▸ hnodup.1), hk, hv]
      by_cases hnil : vv = []
      · subst hnil; simp
      · rw [ginHeader_foldl_eq_last k vv hnil acc, if_neg hnil]
        by_cases hlast : vv.getLastD "" = ""
        · rw [if_pos hlast, hlast, hdrValues_ginHeader_self_empty]
        · rw [if_neg hlast, hdrValues_ginHeader_self acc k _ hlast]
    · have hk : k ≠ p.1 := by
        intro he
        exact hnodup.1 (he ▸ (List.mem_map.mpr ⟨(k, vv), hrest, rfl⟩))
      rw [ih _ hnodup.2 hrest, innerFold_other k p.1 hk p.2 acc]

/-! ## Shared facts about the mirror leg -/

/-- The mirror leg never writes to the caller response: the transport-error and
read-error writes are guarded by `reqType == proxyRequest` and the success path
returns before response processing (`if reqType == mirrorRequest { return }`). -/
theorem mirror_send_leaves_response (traceID : String) (rt : RoundTripResult)
    (resp0 : CallerResponse) :
    (sendRequest .mirror traceID rt resp0).1 = resp0 := by
  cases rt with
  | transportError => rfl
  | response st hs br => rfl

/-- Reduction of `proxyAndMirrorRequest` when the body read succeeds. -/
theorem proxyAndMirror_some_body (mc : Bool) (tU mU uuid : String) (inb : InboundRequest)
    (b : List Nat) (pc mcr : Bool) (prt mrt : RoundTripResult) (hb : inb.bodyRead = some b) :
    proxyAndMirrorRequest mc tU mU uuid inb pc mcr prt mrt =
      (let tid := chooseTraceID inb uuid
       let p := processRequest inb .proxy b tU tid pc prt emptyResponse
       if mc then
         let m := processRequest inb .mirror b mU tid mcr mrt p.2.1
         { resp := m.2.1, primaryReq := p.1, mirrorReq := m.1
           primaryEvents := p.2.2, mirrorEvents := m.2.2 }
       else
         { resp := p.2.1, primaryReq := p.1, mirrorReq := none
           primaryEvents := p.2.2, mirrorEvents := [] }) := by
  unfold proxyAndMirrorRequest
  rw [hb]

/-! ## Claim theorems -/

/-- Claim C1: for every inbound request whose body read fails, the handler
responds 500 with an error body, performs no forwarding to the primary
upstream, and spawns no mirror request. -/
theorem C1_body_read_failure_aborts (mirrorConfigured : Bool)
    (targetURL mirrorURL freshUUID : String) (inb : InboundRequest)
    (primaryCreateOk mirrorCreateOk : Bool) (primaryRT mirrorRT : RoundTripResult)
    (hfail : inb.bodyRead = none) :
    (proxyAndMirrorRequest mirrorConfigured targetURL mirrorURL freshUUID inb
        primaryCreateOk mirrorCreateOk primaryRT mirrorRT).resp.status = some 500 ∧
    (proxyAndMirrorRequest mirrorConfigured targetURL mirrorURL freshUUID inb
        primaryCreateOk mirrorCreateOk primaryRT mirrorRT).resp.body = some (RespBody.jsonError "failed to read request") ∧
    (proxyAndMirrorRequest mirrorConfigured targetURL mirrorURL freshUUID inb
        primaryCreateOk mirrorCreateOk primaryRT mirrorRT).primaryReq = none ∧
    (proxyAndMirrorRequest mirrorConfigured targetURL mirrorURL freshUUID inb
        primaryCreateOk mirrorCreateOk primaryRT mirrorRT).mirrorReq = none ∧
    (proxyAndMirrorRequest mirrorConfigured targetURL mirrorURL freshUUID inb
        primaryCreateOk mirrorCreateOk primaryRT mirrorRT).primaryEvents = [] ∧
    (proxyAndMirrorRequest mirrorConfigured targetURL mirrorURL freshUUID inb
        primaryCreateOk mirrorCreateOk primaryRT mirrorRT).mirrorEvents = [] := by
  simp [proxyAndMirrorRequest, hfail, writeJSON, emptyResponse]

/-- Witness for C1 at a concrete failing body read. -/
theorem C1_body_read_failure_aborts_witness :
    (({ method := "GET", path := "/x", rawQuery := "", headers := [], bodyRead := none } : InboundRequest).bodyRead = none) ∧
    ((proxyAndMirrorRequest true "http://t" "http://m" "u" { method := "GET", path := "/x", rawQuery := "", headers := [], bodyRead := none } true true .transportError .transportError).resp.status = some 500 ∧
      (proxyAndMirrorRequest true "http://t" "http://m" "u" { method := "GET", path := "/x", rawQuery := "", headers := [], bodyRead := none } true true .transportError .transportError).resp.body = some (RespBody.jsonError "failed to read request") ∧
      (proxyAndMirrorRequest true "http://t" "http://m" "u" { method := "GET", path := "/x", rawQuery := "", headers := [], bodyRead := none } true true .transportError .transportError).primaryReq = none ∧
      (proxyAndMirrorRequest true "http://t" "http://m" "u" { method := "GET", path := "/x", rawQuery := "", headers := [], bodyRead := none } true true .transportError .transportError).mirrorReq = none ∧
      (proxyAndMirrorRequest true "http://t" "http://m" "u" { method := "GET", path := "/x", rawQuery := "", headers := [], bodyRead := none } true true .transportError .transportError).primaryEvents = [] ∧
      (proxyAndMirrorRequest true "http://t" "http://m" "u" { method := "GET", path := "/x", rawQuery := "", headers := [], bodyRead := none } true true .transportError .transportError).mirrorEvents = []) :=
  ⟨rfl, C1_body_read_failure_aborts true "http://t" "http://m" "u" { method := "GET", path := "/x", rawQuery := "", headers := [], bodyRead := none } true true .transportError .transportError rfl⟩

/-- Claim C3: on every exit path of `sendRequest` the class counter is
incremented (and the gauge reported) just before the round trip and decremented
(and the gauge reported) afterwards, so over the call it returns to its
starting value and, starting from a non-negative value, never goes negative. -/
theorem C3_connection_accounting (t : ReqType) (traceID : String) (rt : RoundTripResult)
    (resp0 : CallerResponse) (v : ℤ) (hv : 0 ≤ v) :
    (sendRequest t traceID rt resp0).2 =
      [Ev.connInc t, Ev.gauge t, Ev.roundTrip, Ev.metricRecord, Ev.connDec t, Ev.gauge t] ∧
    runCounter t v (sendRequest t traceID rt resp0).2 = v ∧
    (∀ n : Nat, 0 ≤ runCounter t v ((sendRequest t traceID rt resp0).2.take n)) := by
  have hevs : (sendRequest t traceID rt resp0).2 =
      [Ev.connInc t, Ev.gauge t, Ev.roundTrip, Ev.metricRecord, Ev.connDec t, Ev.gauge t] := by
    cases rt with
    | transportError => rfl
    | response st hs br => cases t <;> cases br <;> rfl
  refine ⟨hevs, ?_, ?_⟩
  · rw [hevs]; simp [runCounter, connDelta]
  · intro n
    rw [hevs]
    rcases n with _ | _ | _ | _ | _ | _ | m <;>
      simp [runCounter, connDelta, List.take] <;> omega

/-- Witness for C3 at the proxy class, a transport error and counter 0. -/
theorem C3_connection_accounting_witness :
    (0 : ℤ) ≤ 0 ∧
    ((sendRequest ReqType.proxy "t" RoundTripResult.transportError emptyResponse).2 =
      [Ev.connInc .proxy, Ev.gauge .proxy, Ev.roundTrip, Ev.metricRecord,
        Ev.connDec .proxy, Ev.gauge .proxy] ∧
    runCounter .proxy 0 (sendRequest ReqType.proxy "t" RoundTripResult.transportError
      emptyResponse).2 = 0 ∧
    (∀ n : Nat, 0 ≤ runCounter .proxy 0 ((sendRequest ReqType.proxy "t"
      RoundTripResult.transportError emptyResponse).2.take n))) :=
  ⟨le_refl 0, C3_connection_accounting .proxy "t" .transportError emptyResponse 0 (le_refl 0)⟩

/-- Claim C4, evaluated on the code: when a mirror is configured, the mirror
outbound request is created with the caller's per-request context
(`http.NewRequestWithContext(c.Request.Context(), ...)` in `processRequest`) —
not with a bounded-timeout context derived from the long-lived background
context — so a caller disconnect cancels an in-flight mirror leg. -/
theorem C4_mirror_context_from_caller :
    (proxyAndMirrorRequest true "http://target" "http://mirror" "uuid-1" { method := "GET", path := "/x", rawQuery := "", headers := [], bodyRead := some [] } true true .transportError .transportError).mirrorReq.map OutboundRequest.ctx =
      some ContextRef.callerRequest ∧
    (proxyAndMirrorRequest true "http://target" "http://mirror" "uuid-1" { method := "GET", path := "/x", rawQuery := "", headers := [], bodyRead := some [] } true true .transportError .transportError).mirrorReq.map
        (fun r => cancelledOnCallerDisconnect r.ctx) = some true ∧
    ∀ d : Nat, (proxyAndMirrorRequest true "http://target" "http://mirror" "uuid-1" { method := "GET", path := "/x", rawQuery := "", headers := [], bodyRead := some [] } true true .transportError .transportError).mirrorReq.map OutboundRequest.ctx ≠
      some (ContextRef.withTimeout ContextRef.background d) := by
  refine ⟨rfl, rfl, fun d h => ?_⟩
  rw [show (proxyAndMirrorRequest true "http://target" "http://mirror" "uuid-1" { method := "GET", path := "/x", rawQuery := "", headers := [], bodyRead := some [] } true true .transportError .transportError).mirrorReq.map OutboundRequest.ctx =
      some ContextRef.callerRequest from rfl] at h
  exact ContextRef.noConfusion (Option.some.inj h)

/-- Claim C7 counterexample: an OPTIONS request to an ordinary path is answered
405 by `handleProxy` and never reaches the forwarding engine, although the
claim lists OPTIONS among the dispatched methods. -/
theorem C7_counterexample_options_rejected :
    handleProxy "OPTIONS" "/api/v0/streams/x" = Handler.methodNotAllowed ∧
    reachesForwardingEngine (handleProxy "OPTIONS" "/api/v0/streams/x") = false := by
  exact ⟨by decide, by decide⟩

/-- Claim C7 amended: ACME challenge paths go to the certificate handler and
`/metrics` paths to the scrape handler, never the forwarding engine; all other
paths are dispatched by method among GET/POST/PUT/DELETE only, and every other
method — OPTIONS included — yields 405 with no forwarding attempted. -/
theorem C7_amended_dispatch (method path : String) :
    handleProxy method path = dispatchSpecAmended method path ∧
    (reachesForwardingEngine (handleProxy method path) = true →
      goHasPre path "/.well-known/acme-challenge/" = false ∧
        goHasPre path "/metrics" = false) ∧
    (handleProxy method path = Handler.methodNotAllowed ↔
      goHasPre path "/.well-known/acme-challenge/" = false ∧
        goHasPre path "/metrics" = false ∧
        method ∉ (["GET", "POST", "PUT", "DELETE"] : List String)) := by
  refine ⟨rfl, ?_, ?_⟩ <;>
    by_cases ha : goHasPre path "/.well-known/acme-challenge/" <;>
      by_cases hm : goHasPre path "/metrics" <;>
        by_cases h1 : method = "GET" <;> by_cases h2 : method = "POST" <;>
          by_cases h3 : method = "PUT" <;> by_cases h4 : method = "DELETE" <;>
            simp [handleProxy, reachesForwardingEngine, ha, hm, h1, h2, h3, h4]

/-- Witness for C7's amended dispatch at a concrete OPTIONS request. -/
theorem C7_amended_dispatch_witness :
    handleProxy "OPTIONS" "/api/v0/streams/x" =
      dispatchSpecAmended "OPTIONS" "/api/v0/streams/x" ∧
    (reachesForwardingEngine (handleProxy "OPTIONS" "/api/v0/streams/x") = true →
      goHasPre "/api/v0/streams/x" "/.well-known/acme-challenge/" = false ∧
        goHasPre "/api/v0/streams/x" "/metrics" = false) ∧
    (handleProxy "OPTIONS" "/api/v0/streams/x" = Handler.methodNotAllowed ↔
      goHasPre "/api/v0/streams/x" "/.well-known/acme-challenge/" = false ∧
        goHasPre "/api/v0/streams/x" "/metrics" = false ∧
        "OPTIONS" ∉ (["GET", "POST", "PUT", "DELETE"] : List String)) :=
  C7_amended_dispatch "OPTIONS" "/api/v0/streams/x"

/-- Claim C10: `normalizePath` always lands in the fixed three-element set —
the `/` branch is unreachable because splitting always yields at least one
segment — so the request and duration metric path labels are drawn from that
set. -/
theorem C10_path_label_fixed_set (path : String) :
    (recordRequestPathLabel path = "/node" ∨ recordRequestPathLabel path = "/streams" ∨
      recordRequestPathLabel path = "/other") ∧
    recordDurationPathLabel path = recordRequestPathLabel path ∧
    normalizePath path ≠ "/" := by
  have hlen : ¬ (goSplitChar '/' (goTrimPre path "/api/v0/").toList).length = 0 := by
    simpa [List.length_eq_zero] using
      goSplitChar_ne_nil '/' (goTrimPre path "/api/v0/").toList
  have hnp : normalizePath path =
      (if (goSplitChar '/' (goTrimPre path "/api/v0/").toList).length = 0 then "/"
       else if (goSplitChar '/' (goTrimPre path "/api/v0/").toList).headD [] = "node".toList
         then "/node"
       else if (goSplitChar '/' (goTrimPre path "/api/v0/").toList).headD [] = "streams".toList
         then "/streams"
       else "/other") := rfl
  have key : normalizePath path = "/node" ∨ normalizePath path = "/streams" ∨
      normalizePath path = "/other" := by
    rw [hnp, if_neg hlen]
    by_cases h1 : (goSplitChar '/' (goTrimPre path "/api/v0/").toList).headD [] = "node".toList
    · exact Or.inl (by rw [if_pos h1])
    · by_cases h2 : (goSplitChar '/' (goTrimPre path "/api/v0/").toList).headD [] =
        "streams".toList
      · exact Or.inr (Or.inl (by rw [if_neg h1, if_pos h2]))
      · exact Or.inr (Or.inr (by rw [if_neg h1, if_neg h2]))
  refine ⟨key, rfl, ?_⟩
  rcases key with h | h | h <;> rw [h] <;> decide

/-- Claim C5 counterexample: the upstream response repeats the header `A` with
values `x` then `y`; the caller's written response holds only the final value
`y`, so not every upstream response header is copied to the caller. -/
theorem C5_counterexample_repeated_header_dropped :
    hdrValues (sendRequest .proxy "t1"
      (.response 200 [("A", ["x", "y"])] (some [49])) emptyResponse).1.headers "A" = ["y"] ∧
    hdrValues (sendRequest .proxy "t1"
      (.response 200 [("A", ["x", "y"])] (some [49])) emptyResponse).1.headers "A" ≠
      ["x", "y"] := by
  exact ⟨by decide, by decide⟩

/-- Claim C5 amended: for every successful primary round trip (round trip and
response body read both succeed), the upstream status code and body are written
to the caller byte-exact, the proxy-attribution and trace-correlation headers
are added, and each upstream response header key is set on the caller with the
last of its listed values — earlier values of a repeated header are dropped,
and a last value that is the empty string removes the key instead of copying
it. -/
theorem C5_amended_success_write (traceID : String) (st : Nat) (up : HeaderMap)
    (respBody : List Nat) (k : String) (vv : List String)
    (htid : traceID ≠ "")
    (hnodup : (up.map Prod.fst).Nodup)
    (hmem : (k, vv) ∈ up)
    (hk1 : k ≠ "X-Proxied-By") (hk2 : k ≠ "X-Trace-ID") :
    let out := (sendRequest .proxy traceID (.response st up (some respBody)) emptyResponse).1
    out.status = some st ∧
    out.body = some (RespBody.raw respBody) ∧
    out.contentType = hdrGet up "Content-Type" ∧
    hdrValues out.headers "X-Proxied-By" = [serviceName] ∧
    hdrValues out.headers "X-Trace-ID" = [traceID] ∧
    hdrValues out.headers k = (if vv.getLastD "" = "" then [] else [vv.getLastD ""]) := by
  intro out
  have hout : out.headers =
      ginHeader (ginHeader (copyRespHeaders emptyResponse.headers up) "X-Proxied-By"
        serviceName) "X-Trace-ID" traceID := rfl
  refine ⟨rfl, rfl, rfl, ?_, ?_, ?_⟩
  · rw [hout, hdrValues_ginHeader_other _ _ _ _ (by decide),
      hdrValues_ginHeader_self _ _ _ (by decide)]
  · rw [hout, hdrValues_ginHeader_self _ _ _ htid]
  · rw [hout, hdrValues_ginHeader_other _ _ _ _ hk2, hdrValues_ginHeader_other _ _ _ _ hk1,
      copyRespHeaders_mem up emptyResponse.headers k vv hnodup hmem]
    by_cases hnil : vv = []
    · rw [if_pos hnil, hnil]
      simp [emptyResponse, hdrValues_nil]
    · rw [if_neg hnil]

/-- Witness for C5's amended statement at a concrete successful response. -/
theorem C5_amended_success_write_witness :
    ("t1" : String) ≠ "" ∧
    (([("Content-Type", ["text/plain"]), ("A", ["x", "y"])] : HeaderMap).map
      Prod.fst).Nodup ∧
    ("A", ["x", "y"]) ∈ ([("Content-Type", ["text/plain"]), ("A", ["x", "y"])] : HeaderMap) ∧
    ("A" : String) ≠ "X-Proxied-By" ∧ ("A" : String) ≠ "X-Trace-ID" ∧
    (let out := (sendRequest .proxy "t1" (.response 200
      [("Content-Type", ["text/plain"]), ("A", ["x", "y"])] (some [49, 50]))
      emptyResponse).1
     out.status = some 200 ∧
     out.body = some (RespBody.raw [49, 50]) ∧
     out.contentType = hdrGet [("Content-Type", ["text/plain"]), ("A", ["x", "y"])]
       "Content-Type" ∧
     hdrValues out.headers "X-Proxied-By" = [serviceName] ∧
     hdrValues out.headers "X-Trace-ID" = ["t1"] ∧
     hdrValues out.headers "A" =
       (if (["x", "y"] : List String).getLastD "" = "" then []
        else [(["x", "y"] : List String).getLastD ""])) :=
  ⟨by decide, by decide, by decide, by decide, by decide,
    C5_amended_success_write "t1" 200 [("Content-Type", ["text/plain"]), ("A", ["x", "y"])]
      [49, 50] "A" ["x", "y"] (by decide) (by decide) (by decide) (by decide) (by decide)⟩

/-- Claim C6 counterexample: the inbound request carries `X-Trace-ID: t1` but
the primary round trip fails; the 502 error response carries no headers at all,
so the trace value is not echoed back to the caller on this request. -/
theorem C6_counterexample_no_echo_on_error :
    hdrGet ({ method := "GET", path := "/x", rawQuery := "", headers := [("X-Trace-ID", ["t1"])], bodyRead := some [] } : InboundRequest).headers "X-Trace-ID" = "t1" ∧
    (proxyAndMirrorRequest false "http://t" "" "uuid-1" { method := "GET", path := "/x", rawQuery := "", headers := [("X-Trace-ID", ["t1"])], bodyRead := some [] } true true .transportError .transportError).resp.status = some 502 ∧
    hdrValues (proxyAndMirrorRequest false "http://t" "" "uuid-1" { method := "GET", path := "/x", rawQuery := "", headers := [("X-Trace-ID", ["t1"])], bodyRead := some [] } true true .transportError .transportError).resp.headers "X-Trace-ID" = [] := by
  exact ⟨by decide, by decide, by decide⟩

/-- Claim C6 amended: the trace identifier is the inbound `X-Trace-ID` header
value when non-empty, else the freshly generated UUID; the identical value is
set on both the primary and the mirror outbound requests; and it is echoed back
to the caller whenever the primary upstream response is successfully relayed
(error responses carry no trace header). -/
theorem C6_amended_trace_propagation (targetURL mirrorURL freshUUID : String)
    (inb : InboundRequest) (bodyBytes : List Nat) (st : Nat) (up : HeaderMap)
    (respBody : List Nat) (mirrorRT : RoundTripResult)
    (huuid : freshUUID ≠ "") (hbody : inb.bodyRead = some bodyBytes) :
    chooseTraceID inb freshUUID =
      (if hdrGet inb.headers "X-Trace-ID" = "" then freshUUID
       else hdrGet inb.headers "X-Trace-ID") ∧
    chooseTraceID inb freshUUID ≠ "" ∧
    (proxyAndMirrorRequest true targetURL mirrorURL freshUUID inb true true
      (.response st up (some respBody)) mirrorRT).primaryReq.map
        (fun r => hdrGet r.headers "X-Trace-ID") = some (chooseTraceID inb freshUUID) ∧
    (proxyAndMirrorRequest true targetURL mirrorURL freshUUID inb true true
      (.response st up (some respBody)) mirrorRT).mirrorReq.map
        (fun r => hdrGet r.headers "X-Trace-ID") = some (chooseTraceID inb freshUUID) ∧
    hdrGet (proxyAndMirrorRequest true targetURL mirrorURL freshUUID inb true true
      (.response st up (some respBody)) mirrorRT).resp.headers "X-Trace-ID" =
      chooseTraceID inb freshUUID := by
  have htid : chooseTraceID inb freshUUID ≠ "" := by
    unfold chooseTraceID
    by_cases h : hdrGet inb.headers "X-Trace-ID" = "" <;> simp [h, huuid]
  have hred := proxyAndMirror_some_body true targetURL mirrorURL freshUUID inb bodyBytes
    true true (.response st up (some respBody)) mirrorRT hbody
  rw [if_pos rfl] at hred
  rw [hred]
  refine ⟨rfl, htid, ?_, ?_, ?_⟩
  · show some (hdrGet (buildOutboundRequest inb bodyBytes targetURL
      (chooseTraceID inb freshUUID)).headers "X-Trace-ID") = some (chooseTraceID inb freshUUID)
    rw [show (buildOutboundRequest inb bodyBytes targetURL
      (chooseTraceID inb freshUUID)).headers =
      hdrSet inb.headers "X-Trace-ID" (chooseTraceID inb freshUUID) from rfl]
    rw [hdrGet_hdrSet_self]
  · show some (hdrGet (buildOutboundRequest inb bodyBytes mirrorURL
      (chooseTraceID inb freshUUID)).headers "X-Trace-ID") = some (chooseTraceID inb freshUUID)
    rw [show (buildOutboundRequest inb bodyBytes mirrorURL
      (chooseTraceID inb freshUUID)).headers =
      hdrSet inb.headers "X-Trace-ID" (chooseTraceID inb freshUUID) from rfl]
    rw [hdrGet_hdrSet_self]
  · show hdrGet ((sendRequest .mirror (chooseTraceID inb freshUUID) mirrorRT
      ((sendRequest .proxy (chooseTraceID inb freshUUID)
        (.response st up (some respBody)) emptyResponse).1)).1).headers "X-Trace-ID" =
      chooseTraceID inb freshUUID
    rw [mirror_send_leaves_response]
    rw [show ((sendRequest .proxy (chooseTraceID inb freshUUID)
      (.response st up (some respBody)) emptyResponse).1).headers =
      ginHeader (ginHeader (copyRespHeaders emptyResponse.headers up) "X-Proxied-By"
        serviceName) "X-Trace-ID" (chooseTraceID inb freshUUID) from rfl]
    rw [hdrGet_ginHeader_self _ _ _ htid]

/-- Witness for C6's amended statement at a concrete request and response. -/
theorem C6_amended_trace_propagation_witness :
    ("u1" : String) ≠ "" ∧
    (({ method := "GET", path := "/x", rawQuery := "", headers := [("X-Trace-ID", ["t1"])], bodyRead := some [] } : InboundRequest).bodyRead = some []) ∧
    (chooseTraceID { method := "GET", path := "/x", rawQuery := "", headers := [("X-Trace-ID", ["t1"])], bodyRead := some [] } "u1" =
      (if hdrGet ({ method := "GET", path := "/x", rawQuery := "", headers := [("X-Trace-ID", ["t1"])], bodyRead := some [] } : InboundRequest).headers "X-Trace-ID" = "" then "u1"
       else hdrGet ({ method := "GET", path := "/x", rawQuery := "", headers := [("X-Trace-ID", ["t1"])], bodyRead := some [] } : InboundRequest).headers "X-Trace-ID") ∧
    chooseTraceID { method := "GET", path := "/x", rawQuery := "", headers := [("X-Trace-ID", ["t1"])], bodyRead := some [] } "u1" ≠ "" ∧
    (proxyAndMirrorRequest true "http://t" "http://m" "u1" { method := "GET", path := "/x", rawQuery := "", headers := [("X-Trace-ID", ["t1"])], bodyRead := some [] } true true (.response 200 [] (some [49])) .transportError).primaryReq.map
        (fun r => hdrGet r.headers "X-Trace-ID") =
      some (chooseTraceID { method := "GET", path := "/x", rawQuery := "", headers := [("X-Trace-ID", ["t1"])], bodyRead := some [] } "u1") ∧
    (proxyAndMirrorRequest true "http://t" "http://m" "u1" { method := "GET", path := "/x", rawQuery := "", headers := [("X-Trace-ID", ["t1"])], bodyRead := some [] } true true (.response 200 [] (some [49])) .transportError).mirrorReq.map
        (fun r => hdrGet r.headers "X-Trace-ID") =
      some (chooseTraceID { method := "GET", path := "/x", rawQuery := "", headers := [("X-Trace-ID", ["t1"])], bodyRead := some [] } "u1") ∧
    hdrGet (proxyAndMirrorRequest true "http://t" "http://m" "u1" { method := "GET", path := "/x", rawQuery := "", headers := [("X-Trace-ID", ["t1"])], bodyRead := some [] } true true (.response 200 [] (some [49])) .transportError).resp.headers "X-Trace-ID" =
      chooseTraceID { method := "GET", path := "/x", rawQuery := "", headers := [("X-Trace-ID", ["t1"])], bodyRead := some [] } "u1") :=
  ⟨by decide, rfl,
    C6_amended_trace_propagation "http://t" "http://m" "u1" { method := "GET", path := "/x", rawQuery := "", headers := [("X-Trace-ID", ["t1"])], bodyRead := some [] } [] 200 [] [49] .transportError (by decide) rfl⟩

/-- Claim C8 (panic containment modelled from the spec; the middleware itself
is not under `src/`): a panic raised while handling a request is recovered and
converted into a 500 response with the panic metric recorded and the stack
trace logged, and the process keeps serving: every request of any subsequent
sequence is still handled. -/
theorem C8_panic_contained (run : InboundRequest → HandlerOutcome) (req : InboundRequest)
    (msg : String) (rest : List InboundRequest) (hp : run req = .panicked msg) :
    (panicContainment run req).resp.status = some 500 ∧
    (panicContainment run req).panicMetricRecorded = true ∧
    (panicContainment run req).stackTraceLogged = true ∧
    serveSequence run (req :: rest) = panicContainment run req :: serveSequence run rest ∧
    (serveSequence run (req :: rest)).length = rest.length + 1 := by
  refine ⟨?_, ?_, ?_, rfl, by simp [serveSequence]⟩ <;>
    simp [panicContainment, hp, writeJSON]

/-- Witness for C8 with a handler that always panics and one follow-up
request. -/
theorem C8_panic_contained_witness :
    ((fun _ : InboundRequest => HandlerOutcome.panicked "boom") { method := "GET", path := "/x", rawQuery := "", headers := [], bodyRead := some [] } = HandlerOutcome.panicked "boom") ∧
    ((panicContainment (fun _ => HandlerOutcome.panicked "boom") { method := "GET", path := "/x", rawQuery := "", headers := [], bodyRead := some [] }).resp.status = some 500 ∧
      (panicContainment (fun _ => HandlerOutcome.panicked "boom") { method := "GET", path := "/x", rawQuery := "", headers := [], bodyRead := some [] }).panicMetricRecorded = true ∧
      (panicContainment (fun _ => HandlerOutcome.panicked "boom") { method := "GET", path := "/x", rawQuery := "", headers := [], bodyRead := some [] }).stackTraceLogged = true ∧
      serveSequence (fun _ => HandlerOutcome.panicked "boom") ({ method := "GET", path := "/x", rawQuery := "", headers := [], bodyRead := some [] } :: [{ method := "GET", path := "/y", rawQuery := "", headers := [], bodyRead := some [] }]) =
        panicContainment (fun _ => HandlerOutcome.panicked "boom") { method := "GET", path := "/x", rawQuery := "", headers := [], bodyRead := some [] } :: serveSequence (fun _ => HandlerOutcome.panicked "boom") [{ method := "GET", path := "/y", rawQuery := "", headers := [], bodyRead := some [] }] ∧
      (serveSequence (fun _ => HandlerOutcome.panicked "boom") ({ method := "GET", path := "/x", rawQuery := "", headers := [], bodyRead := some [] } :: [{ method := "GET", path := "/y", rawQuery := "", headers := [], bodyRead := some [] }])).length =
        ([{ method := "GET", path := "/y", rawQuery := "", headers := [], bodyRead := some [] }] : List InboundRequest).length + 1) :=
  ⟨rfl, C8_panic_contained (fun _ => HandlerOutcome.panicked "boom") { method := "GET", path := "/x", rawQuery := "", headers := [], bodyRead := some [] } "boom" [{ method := "GET", path := "/y", rawQuery := "", headers := [], bodyRead := some [] }] rfl⟩

/-- Claim C9: any of SIGINT/SIGTERM/SIGQUIT/SIGHUP cancels the shared server
context and invokes `Stop`, which attempts the 5-second-bounded shutdown on
every owned listener — the proxy listener always and the challenge listener
whenever present, independent of the other's failure — collecting the shutdown
errors and reporting an aggregate error exactly when any shutdown failed. -/
theorem C9_signal_driven_shutdown (sig : OsSignal) (challengePresent : Bool)
    (challengeErr proxyErr : Option String) (hsig : sig ∈ notifiedSignals) :
    runShutdownOnSignal sig challengePresent challengeErr proxyErr =
      some { serverCtxCancelled := true
             stopResult := stop challengePresent challengeErr proxyErr
             fatalExit := (stop challengePresent challengeErr proxyErr).aggregateErr.isSome } ∧
    (stop challengePresent challengeErr proxyErr).deadlineSeconds = 5 ∧
    (stop challengePresent challengeErr proxyErr).attemptedProxy = true ∧
    (stop challengePresent challengeErr proxyErr).attemptedChallenge = challengePresent ∧
    ((stop challengePresent challengeErr proxyErr).aggregateErr.isSome ↔
      (stop challengePresent challengeErr proxyErr).errs ≠ []) ∧
    (∀ e, challengePresent = true → challengeErr = some e →
      ("challenge server shutdown error: " ++ e) ∈
        (stop challengePresent challengeErr proxyErr).errs) ∧
    (∀ e, proxyErr = some e →
      ("proxy server shutdown error: " ++ e) ∈
        (stop challengePresent challengeErr proxyErr).errs) := by
  refine ⟨by simp [runShutdownOnSignal, hsig], rfl, rfl, rfl, ?_, ?_, ?_⟩
  · cases challengePresent <;> rcases challengeErr with _ | e0 <;>
      rcases proxyErr with _ | e1 <;> simp [stop]
  · intro e hcp hce
    subst hcp; subst hce
    rcases proxyErr with _ | e1 <;> simp [stop]
  · intro e hpe
    subst hpe
    cases challengePresent <;> rcases challengeErr with _ | e0 <;> simp [stop]

/-- Witness for C9 at SIGTERM with both listeners present and both failing. -/
theorem C9_signal_driven_shutdown_witness :
    OsSignal.sigterm ∈ notifiedSignals ∧
    (runShutdownOnSignal .sigterm true (some "cErr") (some "pErr") =
      some { serverCtxCancelled := true
             stopResult := stop true (some "cErr") (some "pErr")
             fatalExit := (stop true (some "cErr") (some "pErr")).aggregateErr.isSome } ∧
    (stop true (some "cErr") (some "pErr")).deadlineSeconds = 5 ∧
    (stop true (some "cErr") (some "pErr")).attemptedProxy = true ∧
    (stop true (some "cErr") (some "pErr")).attemptedChallenge = true ∧
    ((stop true (some "cErr") (some "pErr")).aggregateErr.isSome ↔
      (stop true (some "cErr") (some "pErr")).errs ≠ []) ∧
    (∀ e, true = true → (some "cErr" : Option String) = some e →
      ("challenge server shutdown error: " ++ e) ∈
        (stop true (some "cErr") (some "pErr")).errs) ∧
    (∀ e, (some "pErr" : Option String) = some e →
      ("proxy server shutdown error: " ++ e) ∈
        (stop true (some "cErr") (some "pErr")).errs)) :=
  ⟨by decide, C9_signal_driven_shutdown .sigterm true (some "cErr") (some "pErr") (by decide)⟩

end GoMirror
